import Mathlib

/-!
Verification development for the THÉRÈSE sidecar process supervisor
(`src/frontend/src-tauri/src/lib.rs` and `commands.rs`).

The Rust code is shallowly embedded: stateful code becomes explicit state
passing over an `AppState` record, external effects (process signals, file
deletions, HTTP traffic, log writes) become elements of explicit action-trace
lists, and the behaviour of the outside world (did the TCP connect succeed,
which processes match the reaper's scan, ...) becomes explicit parameters.
Wall-clock time spent in the shutdown path is modelled in milliseconds as a
`Nat` computed from the same behaviour parameters.
-/

namespace Therese

/-- `const BACKEND_PORT: u16 = 17293` (lib.rs line 15): the fixed backend
port. -/
def BACKEND_PORT : Nat := 17293

/-- Connect timeout of the cooperative-shutdown TCP connection,
`TcpStream::connect_timeout(&addr, Duration::from_secs(2))` (lib.rs 387-390),
in milliseconds. -/
def connectTimeoutMs : Nat := 2000

/-- Read timeout set on the shutdown connection,
`stream.set_read_timeout(Some(Duration::from_secs(2)))` (lib.rs 397-399),
in milliseconds. -/
def readTimeoutMs : Nat := 2000

/-- Unconditional grace wait between the HTTP attempt and the force kill,
`std::thread::sleep(Duration::from_secs(3))` (lib.rs 408), in milliseconds. -/
def graceWaitMs : Nat := 3000

/-- The process-wide shared state managed by the Tauri app: the
`BackendPort(Mutex<u16>)` value and the `SidecarState.child` slot
(`Mutex<Option<CommandChild>>`), lib.rs 202-207.  A live child handle is
represented by its pid. -/
structure AppState where
  backendPort : Nat
  child : Option Nat
  deriving DecidableEq, Repr

/-- The state after `.manage(SidecarState { child: Mutex::new(None) })` and
`.manage(BackendPort(Mutex::new(BACKEND_PORT)))` (lib.rs 216-219). -/
def initialState : AppState := { backendPort := BACKEND_PORT, child := none }

/-- `commands.rs` 31-34: the IPC accessor returning the stored backend
port. -/
def get_backend_port (s : AppState) : Nat := s.backendPort

/-- Behaviour of the backend (and OS) observed by the exit handler:
whether the TCP connect within the 2s timeout succeeded, whether the HTTP
write and read succeeded (both results are discarded by the code, `let _ =`),
the milliseconds the connect attempt and the read consumed, and the latency
of the kill plus orphan-cleanup commands. -/
structure ShutdownBehavior where
  connectOk : Bool
  writeOk : Bool
  readOk : Bool
  connectMs : Nat
  readMs : Nat
  killMs : Nat
  deriving DecidableEq, Repr

/-- Observable actions of the `RunEvent::Exit` handler (lib.rs 373-432). -/
inductive ExitAction where
  | logStart (pid port : Nat)
  | tcpConnect (port : Nat)
  | httpShutdownRequest (port : Nat)
  | logUnreachable
  | graceWaitSecs (n : Nat)
  | forceKill (pid : Nat)
  | orphanCleanup (pid : Nat)
  | logDone
  deriving DecidableEq, Repr

/-- The `RunEvent::Exit` handler (lib.rs 373-432).  `guard.take()` empties the
child slot; if it held a pid, the four-step teardown runs: (1) TCP connect
with 2s timeout, on success a `POST /api/shutdown` is written and a bounded
read performed, every outcome ignored; (2) unconditional 3s sleep; (3)
`child.kill()`, result ignored; (4) `pkill -9 -P pid` / `taskkill /T /F`
orphan cleanup, result ignored.  Returns the new state, the action trace,
and the elapsed milliseconds.  The HTTP write is modelled as instantaneous
(the request is far smaller than a socket send buffer); `writeOk`/`readOk`
are carried in the behaviour but, exactly like the discarded `let _ =`
results in the code, influence nothing. -/
def exitHandler (b : ShutdownBehavior) (s : AppState) :
    AppState × List ExitAction × Nat :=
  match s.child with
  | none => (s, [], 0)
  | some pid =>
    let port := s.backendPort
    let step1 : List ExitAction × Nat :=
      if b.connectOk then
        ([ExitAction.tcpConnect port, ExitAction.httpShutdownRequest port],
         b.connectMs + b.readMs)
      else
        ([ExitAction.tcpConnect port, ExitAction.logUnreachable], b.connectMs)
    ({ s with child := none },
     ExitAction.logStart pid port :: step1.1 ++
       [ExitAction.graceWaitSecs 3, ExitAction.forceKill pid,
        ExitAction.orphanCleanup pid, ExitAction.logDone],
     step1.2 + graceWaitMs + b.killMs)

/-- `CommandEvent` variants received by the output-relay task (lib.rs
316-338): stdout line, stderr line, termination payload `{code, signal}`,
and the catch-all `_ => {}` arm for any other event. -/
inductive ChildOutputEvent where
  | stdoutLine (line : String)
  | stderrLine (line : String)
  | terminated (code : Option Int) (signal : Option Int)
  | otherEvent
  deriving DecidableEq, Repr

/-- Entries the relay appends to the sidecar log (`log_sidecar` calls at
lib.rs 321, 326, 334). -/
inductive LogEntry where
  | stdoutEntry (line : String)
  | stderrEntry (line : String)
  | terminatedEntry (code : Option Int) (signal : Option Int)
  deriving DecidableEq, Repr

/-- The relay loop body (lib.rs 315-340): each stdout/stderr line is logged
and the loop continues; `Terminated` is logged and the loop `break`s, so
anything after it is never received; other events are ignored. -/
def outputRelay : List ChildOutputEvent → List LogEntry
  | [] => []
  | ChildOutputEvent.stdoutLine l :: rest => LogEntry.stdoutEntry l :: outputRelay rest
  | ChildOutputEvent.stderrLine l :: rest => LogEntry.stderrEntry l :: outputRelay rest
  | ChildOutputEvent.terminated c sg :: _ => [LogEntry.terminatedEntry c sg]
  | ChildOutputEvent.otherEvent :: rest => outputRelay rest

/-- The log entry a single non-terminating event contributes, if any. -/
def lineEntry : ChildOutputEvent → Option LogEntry
  | ChildOutputEvent.stdoutLine l => some (LogEntry.stdoutEntry l)
  | ChildOutputEvent.stderrLine l => some (LogEntry.stderrEntry l)
  | _ => none

/-- Whether an event is the `Terminated` variant. -/
def isTerminatedEvent : ChildOutputEvent → Bool
  | ChildOutputEvent.terminated _ _ => true
  | _ => false

/-- A running process as seen by the Unix reaper: its pid, whether its
command line matches `pgrep -f "backend.*--host.*127\.0\.0\.1"`, and
whether it is still alive (still matching) at the re-scan after SIGTERM
plus the 2s grace sleep. -/
structure UnixProc where
  pid : Nat
  matchesSig : Bool
  survivesTerm : Bool
  deriving DecidableEq, Repr

/-- A running process as seen by the Windows reaper: its pid, whether it
matches the wmic filter (`name='backend.exe' and commandline like
'%--host%127.0.0.1%'`), and whether its image name is `backend.exe`
(the only thing the tasklist fallback can filter on). -/
structure WinProc where
  pid : Nat
  wmicSigMatch : Bool
  imageIsBackendExe : Bool
  deriving DecidableEq, Repr

/-- Observable actions of `kill_zombie_backends` (lib.rs 36-199). -/
inductive ReaperAction where
  | scanProcesses
  | sigterm (pid : Nat)
  | reaperGraceSecs (n : Nat)
  | rescanProcesses
  | sigkill (pid : Nat)
  | killChildrenOf (pid : Nat)
  | forceKillTree (pid : Nat)
  | removeLockFile
  | removeStagingDir (dirName : String)
  deriving DecidableEq, Repr

/-- The filesystem state the stale-artifact cleanup touches: whether
`~/.therese/qdrant/.lock` exists, and the entries of `~/.therese/runtime`
as (name, is-directory) pairs. -/
structure RuntimeFs where
  lockFileExists : Bool
  runtimeDirEntries : List (String × Bool)
  deriving DecidableEq, Repr

/-- `starts_with` on character lists: Rust's `str::starts_with` used at
lib.rs 189, written over `String.data` so that it evaluates by kernel
reduction. -/
def listStartsWith : List Char → List Char → Bool
  | _, [] => true
  | [], _ :: _ => false
  | a :: as, b :: bs => a == b && listStartsWith as bs

/-- An entry of the runtime directory is a stale PyInstaller staging
artifact iff its name starts with `_MEI` and it is a directory
(lib.rs 189). -/
def isStaleStagingEntry (e : String × Bool) : Bool :=
  listStartsWith e.1.data "_MEI".data && e.2

/-- Stale-artifact cleanup (lib.rs 172-196): remove the Qdrant `.lock` file
if it exists, and remove every `_MEI*` directory from the runtime dir.
Returns the new filesystem state and the deletion actions performed. -/
def cleanStaleArtifacts (fs : RuntimeFs) : RuntimeFs × List ReaperAction :=
  let lockActs := if fs.lockFileExists then [ReaperAction.removeLockFile] else []
  let staleActs := (fs.runtimeDirEntries.filter isStaleStagingEntry).map
      (fun e => ReaperAction.removeStagingDir e.1)
  ({ lockFileExists := false,
     runtimeDirEntries := fs.runtimeDirEntries.filter fun e => !isStaleStagingEntry e },
   lockActs ++ staleActs)

/-- Pids reported by the first `pgrep` scan minus the reaper's own pid
(lib.rs 41-61: the loop skips `pid == current_pid`). -/
def unixMatches (selfPid : Nat) (procs : List UnixProc) : List Nat :=
  (procs.filter fun p => p.matchesSig && p.pid != selfPid).map UnixProc.pid

/-- Pids still reported by the second `pgrep` scan after SIGTERM and the
2s grace sleep, again minus the reaper's own pid (lib.rs 67-77). -/
def unixSurvivors (selfPid : Nat) (procs : List UnixProc) : List Nat :=
  (procs.filter fun p => p.matchesSig && p.survivesTerm && p.pid != selfPid).map UnixProc.pid

/-- `kill_zombie_backends`, Unix branch (lib.rs 39-91) followed by the
shared stale-artifact cleanup (lib.rs 172-196).  If the first scan finds
no match, nothing is signalled and no sleep happens; otherwise every match
gets `kill -15`, the reaper sleeps 2s, re-scans, and each survivor gets
`kill -9` followed by `pkill -9 -P` on its children. -/
def kill_zombie_backends_unix (selfPid : Nat) (procs : List UnixProc)
    (fs : RuntimeFs) : RuntimeFs × List ReaperAction :=
  let m := unixMatches selfPid procs
  let pre : List ReaperAction :=
    if m.isEmpty then [ReaperAction.scanProcesses]
    else
      ReaperAction.scanProcesses :: m.map ReaperAction.sigterm ++
        [ReaperAction.reaperGraceSecs 2, ReaperAction.rescanProcesses] ++
        (unixSurvivors selfPid procs).flatMap
          fun p => [ReaperAction.sigkill p, ReaperAction.killChildrenOf p]
  let cleaned := cleanStaleArtifacts fs
  (cleaned.1, pre ++ cleaned.2)

/-- Pids collected by the wmic query minus the reaper's own pid
(lib.rs 100-125); empty when wmic is unavailable or failed. -/
def wmicPids (selfPid : Nat) (wmicAvailable : Bool) (procs : List WinProc) : List Nat :=
  if wmicAvailable then
    (procs.filter fun p => p.wmicSigMatch && p.pid != selfPid).map WinProc.pid
  else []

/-- Pids collected by the tasklist fallback (image name only) minus the
reaper's own pid (lib.rs 129-154). -/
def tasklistPids (selfPid : Nat) (procs : List WinProc) : List Nat :=
  (procs.filter fun p => p.imageIsBackendExe && p.pid != selfPid).map WinProc.pid

/-- The pid list the Windows reaper acts on: the wmic result, or — when it
is empty — the tasklist fallback (lib.rs 129: `if found_pids.is_empty()`). -/
def windowsFoundPids (selfPid : Nat) (wmicAvailable : Bool)
    (procs : List WinProc) : List Nat :=
  let w := wmicPids selfPid wmicAvailable procs
  if w.isEmpty then tasklistPids selfPid procs else w

/-- `kill_zombie_backends`, Windows branch (lib.rs 93-170) followed by the
shared stale-artifact cleanup.  Every found pid is immediately killed with
`taskkill /T /F` (forced, whole process tree); if any pid was found the
reaper then sleeps 3s waiting for file handles to be released.  There is
no cooperative signal, no pre-kill grace period and no re-scan on this
branch. -/
def kill_zombie_backends_windows (selfPid : Nat) (wmicAvailable : Bool)
    (procs : List WinProc) (fs : RuntimeFs) : RuntimeFs × List ReaperAction :=
  let found := windowsFoundPids selfPid wmicAvailable procs
  let killActs := found.map ReaperAction.forceKillTree
  let waitActs : List ReaperAction :=
    if found.isEmpty then [] else [ReaperAction.reaperGraceSecs 3]
  let cleaned := cleanStaleArtifacts fs
  (cleaned.1, ReaperAction.scanProcesses :: killActs ++ waitActs ++ cleaned.2)

/-- The sidecar command built at lib.rs 289-302: executable, argument
list, and environment assoc list. -/
structure SpawnCommand where
  executable : String
  args : List String
  env : List (String × String)
  deriving DecidableEq, Repr

/-- `app.shell().sidecar("backend")` with `.args([...])` and the six
`.env(...)` calls (lib.rs 289-302): arguments
`--host 127.0.0.1 --port <port>` and environment with the port, the
environment-mode flag, the model-cache directory, and the three
temp-directory aliases all pointing at the runtime directory. -/
def buildSidecarCommand (port : Nat) (modelsPath runtimePath : String) :
    SpawnCommand :=
  { executable := "backend",
    args := ["--host", "127.0.0.1", "--port", toString port],
    env := [("THERESE_PORT", toString port),
            ("THERESE_ENV", "production"),
            ("SENTENCE_TRANSFORMERS_HOME", modelsPath),
            ("TMPDIR", runtimePath),
            ("TEMP", runtimePath),
            ("TMP", runtimePath)] }

/-- Outcome of the sidecar-creation attempt: `cmd.spawn()` returned a child
(lib.rs 305), `cmd.spawn()` failed with an OS error (lib.rs 342), or
`app.shell().sidecar("backend")` itself failed because the binary is
missing (lib.rs 352).  The `String` is the error's rendering. -/
inductive SpawnOutcome where
  | spawnOk (pid : Nat)
  | spawnFailed (errText : String)
  | binaryMissing (errText : String)
  deriving DecidableEq, Repr

/-- Observable actions of the release-mode setup closure (lib.rs 244-361). -/
inductive SetupEvent where
  | reaperInvoked
  | portStored (port : Nat)
  | sidecarSpawned (cmd : SpawnCommand) (pid : Nat)
  | relayStarted (pid : Nat)
  | errorLogged (msg : String)
  | windowNotified (eventName : String) (msg : String)
  deriving DecidableEq, Repr

/-- The release-mode setup path (lib.rs 244-363): run the zombie reaper,
store `BACKEND_PORT` in the shared state, build the sidecar command, and
spawn it.  On success the child handle is stored and the relay task
started; on either failure the error is logged with its human-readable
message, the message is emitted to the `main` window as a `sidecar-error`
event when that window exists, and the closure still returns `Ok(())`
(the final `Bool`), leaving the child slot untouched. -/
def setupRelease (hasMainWindow : Bool) (outcome : SpawnOutcome)
    (modelsPath runtimePath : String) (s : AppState) :
    AppState × List SetupEvent × Bool :=
  let s1 := { s with backendPort := BACKEND_PORT }
  let cmd := buildSidecarCommand BACKEND_PORT modelsPath runtimePath
  let stored := [SetupEvent.reaperInvoked, SetupEvent.portStored BACKEND_PORT]
  match outcome with
  | SpawnOutcome.spawnOk pid =>
    ({ s1 with child := some pid },
     stored ++ [SetupEvent.sidecarSpawned cmd pid, SetupEvent.relayStarted pid],
     true)
  | SpawnOutcome.spawnFailed e =>
    let msg := "Erreur lancement sidecar : " ++ e
    (s1,
     stored ++ SetupEvent.errorLogged msg ::
       (if hasMainWindow then [SetupEvent.windowNotified "sidecar-error" msg] else []),
     true)
  | SpawnOutcome.binaryMissing e =>
    let msg := "Binaire sidecar introuvable : " ++ e
    (s1,
     stored ++ SetupEvent.errorLogged msg ::
       (if hasMainWindow then [SetupEvent.windowNotified "sidecar-error" msg] else []),
     true)

/-- Whether a setup event is the `sidecar-error` window notification. -/
def isWindowNotifyEvent : SetupEvent → Bool
  | SetupEvent.windowNotified _ _ => true
  | _ => false

/-- States of the shared slot reachable in a run of the application:
the initial managed state, followed by any interleaving of the (release)
setup path and the exit handler. -/
inductive Reachable : AppState → Prop where
  | init : Reachable initialState
  | setupStep (hw : Bool) (oc : SpawnOutcome) (m r : String) (s : AppState) :
      Reachable s → Reachable (setupRelease hw oc m r s).1
  | exitStep (b : ShutdownBehavior) (s : AppState) :
      Reachable s → Reachable (exitHandler b s).1

/-- C1: on the exit event with a child handle present, the exit handler's
trace is exactly: the HTTP cooperative-shutdown attempt (the TCP connect,
followed by the request when the connect succeeded or by the unreachable
log when it failed), then the fixed grace wait, then the forced kill of
the direct child, then the orphan-descendant cleanup, then the terminal
"torn down" log.  The equality holds for every behaviour `b` — in
particular for a failed connect (`b.connectOk = false`) and for failed
HTTP writes/reads (`b.writeOk`, `b.readOk` arbitrary) — so every later
step runs regardless of earlier-step success and the sequence always
reaches its terminal log. -/
theorem shutdown_sequence_order (b : ShutdownBehavior) (port pid : Nat) :
    (exitHandler b { backendPort := port, child := some pid }).2.1 =
      ExitAction.logStart pid port :: ExitAction.tcpConnect port ::
        (if b.connectOk then [ExitAction.httpShutdownRequest port]
         else [ExitAction.logUnreachable]) ++
        [ExitAction.graceWaitSecs 3, ExitAction.forceKill pid,
         ExitAction.orphanCleanup pid, ExitAction.logDone] := by
  cases hc : b.connectOk <;> simp [exitHandler, hc]

/-- C9: the exit handler empties the child slot (`guard.take()`) before any
teardown step, so teardown happens at most once: after a run on a state
holding a child, the slot is `none`, teardown actions were performed, and
a second run (with any behaviour) performs no action and changes
nothing. -/
theorem exit_handler_teardown_once (b b2 : ShutdownBehavior) (port pid : Nat) :
    (exitHandler b { backendPort := port, child := some pid }).1 =
      { backendPort := port, child := none } ∧
    ((exitHandler b { backendPort := port, child := some pid }).2.1).length = 7 ∧
    exitHandler b2 (exitHandler b { backendPort := port, child := some pid }).1 =
      ({ backendPort := port, child := none }, [], 0) := by
  refine ⟨?_, ?_, ?_⟩ <;> cases hc : b.connectOk <;> simp [exitHandler, hc]

/-- C10: when the child slot holds `none` at exit, the handler performs no
shutdown step at all (empty trace, zero elapsed time) and leaves the
shared state — port value and handle slot — unchanged. -/
theorem exit_handler_no_child_frame (b : ShutdownBehavior) (port : Nat) :
    exitHandler b { backendPort := port, child := none } =
      ({ backendPort := port, child := none }, [], 0) := by
  simp [exitHandler]

/-- C3, counterexample: a backend that lets the TCP connect succeed only at
the full 2s connect timeout and then never responds (so the bounded read
consumes its full 2s timeout) makes the shutdown sequence take 7000 ms
(with zero kill latency), which exceeds the claimed bound of 2s connect +
3s grace + kill latency = 5000 ms.  Both timing components respect the
code's own timeouts, so this is a possible backend behaviour. -/
theorem shutdown_time_claim_counterexample :
    (⟨true, true, true, 2000, 2000, 0⟩ : ShutdownBehavior).connectMs ≤ connectTimeoutMs ∧
    (⟨true, true, true, 2000, 2000, 0⟩ : ShutdownBehavior).readMs ≤ readTimeoutMs ∧
    (exitHandler ⟨true, true, true, 2000, 2000, 0⟩
        { backendPort := BACKEND_PORT, child := some 1234 }).2.2 = 7000 ∧
    connectTimeoutMs + graceWaitMs + 0 <
      (exitHandler ⟨true, true, true, 2000, 2000, 0⟩
        { backendPort := BACKEND_PORT, child := some 1234 }).2.2 := by
  refine ⟨by decide, by decide, rfl, by decide⟩

/-- C3, amended: for every backend behaviour whose connect attempt stays
within the 2s connect timeout and whose read stays within the 2s read
timeout, the shutdown sequence terminates within connect timeout + read
timeout + grace wait + kill latency (7s + kill latency) and its trace ends
at the terminal "torn down" log — it never hangs indefinitely. -/
theorem shutdown_time_bound (b : ShutdownBehavior) (port pid : Nat)
    (hc : b.connectMs ≤ connectTimeoutMs) (hr : b.readMs ≤ readTimeoutMs) :
    (exitHandler b { backendPort := port, child := some pid }).2.2 ≤
      connectTimeoutMs + readTimeoutMs + graceWaitMs + b.killMs ∧
    ((exitHandler b { backendPort := port, child := some pid }).2.1).getLast? =
      some ExitAction.logDone := by
  constructor
  · revert hc hr
    cases hcon : b.connectOk <;>
      simp [exitHandler, hcon, connectTimeoutMs, readTimeoutMs, graceWaitMs] <;>
      omega
  · cases hcon : b.connectOk <;> simp [exitHandler, hcon]

/-- Witness for `shutdown_time_bound` at a concrete behaviour and state. -/
theorem shutdown_time_bound_witness :
    (exitHandler ⟨true, true, true, 1, 1, 5⟩
        { backendPort := 17293, child := some 7 }).2.2 ≤
      connectTimeoutMs + readTimeoutMs + graceWaitMs + 5 ∧
    ((exitHandler ⟨true, true, true, 1, 1, 5⟩
        { backendPort := 17293, child := some 7 }).2.1).getLast? =
      some ExitAction.logDone :=
  shutdown_time_bound ⟨true, true, true, 1, 1, 5⟩ 17293 7 (by decide) (by decide)

/-- C7: for any finite event sequence consisting of non-`Terminated` events
`pre` followed by a `Terminated` event (and anything after it), the relay
logs exactly the stdout/stderr lines of `pre` in production order, then
the termination entry, and stops — nothing after the `Terminated` event
is processed. -/
theorem output_relay_order (pre : List ChildOutputEvent) (c sg : Option Int)
    (post : List ChildOutputEvent)
    (h : pre.all (fun e => !isTerminatedEvent e) = true) :
    outputRelay (pre ++ ChildOutputEvent.terminated c sg :: post) =
      pre.filterMap lineEntry ++ [LogEntry.terminatedEntry c sg] := by
  induction pre with
  | nil => simp [outputRelay]
  | cons e rest ih =>
    cases e <;> simp_all [outputRelay, lineEntry, isTerminatedEvent]

/-- Witness for `output_relay_order` on the spec's example sequence
[Stdout "a", Stderr "b", Stdout "c", Terminated]. -/
theorem output_relay_order_witness :
    outputRelay [ChildOutputEvent.stdoutLine "a", ChildOutputEvent.stderrLine "b",
        ChildOutputEvent.stdoutLine "c", ChildOutputEvent.terminated (some 0) none] =
      [LogEntry.stdoutEntry "a", LogEntry.stderrEntry "b", LogEntry.stdoutEntry "c",
        LogEntry.terminatedEntry (some 0) none] := by
  have h := output_relay_order
    [ChildOutputEvent.stdoutLine "a", ChildOutputEvent.stderrLine "b",
      ChildOutputEvent.stdoutLine "c"] (some 0) none [] (by decide)
  simpa [lineEntry] using h

/-- C2, counterexample: on Windows, with one process matching the backend
launch signature (pid 42, reaper pid 1, wmic available, clean filesystem),
the reaper force-kills the match's whole process tree immediately — the
trace contains no cooperative termination signal to the match, no re-scan,
and no 2s grace period, contradicting the claim that every supported
platform first signals cooperatively, waits ~2s, re-scans, and only then
force-kills. -/
theorem zombie_reaper_windows_counterexample :
    (kill_zombie_backends_windows 1 true [⟨42, true, true⟩] ⟨false, []⟩).2 =
      [ReaperAction.scanProcesses, ReaperAction.forceKillTree 42,
        ReaperAction.reaperGraceSecs 3] ∧
    ((kill_zombie_backends_windows 1 true [⟨42, true, true⟩] ⟨false, []⟩).2).count
      (ReaperAction.forceKillTree 42) = 1 ∧
    ((kill_zombie_backends_windows 1 true [⟨42, true, true⟩] ⟨false, []⟩).2).count
      (ReaperAction.sigterm 42) = 0 ∧
    ((kill_zombie_backends_windows 1 true [⟨42, true, true⟩] ⟨false, []⟩).2).count
      ReaperAction.rescanProcesses = 0 ∧
    ((kill_zombie_backends_windows 1 true [⟨42, true, true⟩] ⟨false, []⟩).2).count
      (ReaperAction.reaperGraceSecs 2) = 0 := by
  refine ⟨?_, ?_, ?_, ?_, ?_⟩ <;> decide

/-- C2, amended: the reaper's behaviour is platform-specific.  On Unix it
follows the claimed protocol: enumerate matches excluding its own pid;
with no match the trace is just the scan followed by stale-artifact
removal; otherwise each match gets SIGTERM, a 2s grace sleep and a re-scan
follow, and only then each survivor is SIGKILLed together with its
children, before the stale-artifact removal.  On Windows the reaper
enumerates matches (wmic, falling back to tasklist) excluding its own pid
and immediately force-kills each match's process tree, then sleeps 3s if
anything was found, then removes stale artifacts — no cooperative signal,
no pre-kill grace, no re-scan.  On both platforms the enumeration never
includes the reaper's own pid. -/
theorem kill_zombie_backends_protocol :
    (∀ selfPid procs fs,
      (kill_zombie_backends_unix selfPid procs fs).2 =
        (if (unixMatches selfPid procs).isEmpty then [ReaperAction.scanProcesses]
         else
           ReaperAction.scanProcesses ::
             (unixMatches selfPid procs).map ReaperAction.sigterm ++
             [ReaperAction.reaperGraceSecs 2, ReaperAction.rescanProcesses] ++
             (unixSurvivors selfPid procs).flatMap
               (fun p => [ReaperAction.sigkill p, ReaperAction.killChildrenOf p])) ++
          (cleanStaleArtifacts fs).2) ∧
    (∀ selfPid wa procs fs,
      (kill_zombie_backends_windows selfPid wa procs fs).2 =
        ReaperAction.scanProcesses ::
          (windowsFoundPids selfPid wa procs).map ReaperAction.forceKillTree ++
          (if (windowsFoundPids selfPid wa procs).isEmpty then []
           else [ReaperAction.reaperGraceSecs 3]) ++
          (cleanStaleArtifacts fs).2) ∧
    (∀ selfPid procs, (unixMatches selfPid procs).count selfPid = 0) ∧
    (∀ selfPid wa procs, (windowsFoundPids selfPid wa procs).count selfPid = 0) := by
  refine ⟨fun selfPid procs fs => rfl, fun selfPid wa procs fs => rfl, ?_, ?_⟩
  · intro selfPid procs
    rw [List.count_eq_zero]
    simp [unixMatches, List.mem_map, List.mem_filter]
  · intro selfPid wa procs
    rw [List.count_eq_zero]
    unfold windowsFoundPids
    by_cases h : (wmicPids selfPid wa procs).isEmpty
    · simp [h, tasklistPids, List.mem_map, List.mem_filter]
    · simp only [h, if_neg, Bool.false_eq_true, not_false_eq_true, if_false]
      cases wa <;> simp [wmicPids, List.mem_map, List.mem_filter]

/-- C8: stale-artifact removal is a no-op — identical filesystem, no
deletion action — whenever the lock file is absent and no runtime-dir
entry is a `_MEI*` directory; and on both platforms every reaper
invocation ends with exactly the stale-artifact cleanup (its actions are
the trace's suffix and its filesystem result is the reaper's result),
whether or not any zombie was found. -/
theorem stale_artifact_cleanup_noop :
    (∀ entries : List (String × Bool),
      entries.all (fun e => !isStaleStagingEntry e) = true →
      cleanStaleArtifacts ⟨false, entries⟩ = (⟨false, entries⟩, [])) ∧
    (∀ selfPid procs fs,
      (kill_zombie_backends_unix selfPid procs fs).1 = (cleanStaleArtifacts fs).1 ∧
      (cleanStaleArtifacts fs).2 <:+ (kill_zombie_backends_unix selfPid procs fs).2) ∧
    (∀ selfPid wa procs fs,
      (kill_zombie_backends_windows selfPid wa procs fs).1 = (cleanStaleArtifacts fs).1 ∧
      (cleanStaleArtifacts fs).2 <:+ (kill_zombie_backends_windows selfPid wa procs fs).2) := by
  refine ⟨?_, ?_, ?_⟩
  · intro entries h2
    simp only [List.all_eq_true] at h2
    have hnil : entries.filter isStaleStagingEntry = [] := by
      rw [List.filter_eq_nil_iff]
      intro a ha
      simpa using h2 a ha
    have hself : entries.filter (fun e => !isStaleStagingEntry e) = entries := by
      rw [List.filter_eq_self]
      intro a ha
      exact h2 a ha
    simp [cleanStaleArtifacts, hnil, hself]
  · intro selfPid procs fs
    exact ⟨rfl, ⟨_, rfl⟩⟩
  · intro selfPid wa procs fs
    refine ⟨rfl, ?_⟩
    refine ⟨ReaperAction.scanProcesses ::
      ((windowsFoundPids selfPid wa procs).map ReaperAction.forceKillTree ++
        (if (windowsFoundPids selfPid wa procs).isEmpty then []
         else [ReaperAction.reaperGraceSecs 3])), ?_⟩
    simp [kill_zombie_backends_windows]

/-- Witness for `stale_artifact_cleanup_noop`: a runtime dir holding only a
`_MEI`-named plain file (not a directory) and a non-`_MEI` directory is
left untouched. -/
theorem stale_artifact_cleanup_noop_witness :
    cleanStaleArtifacts ⟨false, [("_MEI42", false), ("models", true)]⟩ =
      (⟨false, [("_MEI42", false), ("models", true)]⟩, []) :=
  stale_artifact_cleanup_noop.1 [("_MEI42", false), ("models", true)] (by decide)

/-- C4: the stored backend port is the fixed constant — in every reachable
state the exposed accessor `get_backend_port` returns `BACKEND_PORT` —
and on a successful spawn the `--port` argument handed to the child is
exactly the rendering of the stored port. -/
theorem backend_port_invariant :
    (∀ s, Reachable s → get_backend_port s = BACKEND_PORT) ∧
    (∀ hw m r pid s,
      (buildSidecarCommand BACKEND_PORT m r).args =
        ["--host", "127.0.0.1", "--port",
          toString (get_backend_port (setupRelease hw (SpawnOutcome.spawnOk pid) m r s).1)] ∧
      SetupEvent.sidecarSpawned (buildSidecarCommand BACKEND_PORT m r) pid ∈
        (setupRelease hw (SpawnOutcome.spawnOk pid) m r s).2.1) := by
  constructor
  · intro s h
    induction h with
    | init => rfl
    | setupStep hw oc m r s hs ih => cases oc <;> simp [setupRelease, get_backend_port]
    | exitStep b s hs ih =>
      cases hc : s.child with
      | none => simpa [exitHandler, hc, get_backend_port] using ih
      | some pid => simpa [exitHandler, hc, get_backend_port] using ih
  · intro hw m r pid s
    exact ⟨rfl, by simp [setupRelease]⟩

/-- Witness for `backend_port_invariant` at the state reached by the
initial state followed by one successful setup. -/
theorem backend_port_invariant_witness :
    get_backend_port (setupRelease true (SpawnOutcome.spawnOk 5) "m" "r" initialState).1 =
      BACKEND_PORT :=
  backend_port_invariant.1 (setupRelease true (SpawnOutcome.spawnOk 5) "m" "r" initialState).1
    (Reachable.setupStep true (SpawnOutcome.spawnOk 5) "m" "r" initialState Reachable.init)

/-- C5: on every successful launch a spawn event is emitted whose command
has exactly the arguments `--host 127.0.0.1 --port 17293` and exactly the
environment consisting of the port variable, the environment-mode flag,
the model-cache directory, and the three temp-directory aliases `TMPDIR`,
`TEMP`, `TMP` all bound to the same runtime directory. -/
theorem sidecar_spawn_arguments (hw : Bool) (pid : Nat) (m r : String) (s : AppState) :
    SetupEvent.sidecarSpawned (buildSidecarCommand BACKEND_PORT m r) pid ∈
      (setupRelease hw (SpawnOutcome.spawnOk pid) m r s).2.1 ∧
    (buildSidecarCommand BACKEND_PORT m r).args =
      ["--host", "127.0.0.1", "--port", "17293"] ∧
    (buildSidecarCommand BACKEND_PORT m r).env =
      [("THERESE_PORT", "17293"), ("THERESE_ENV", "production"),
       ("SENTENCE_TRANSFORMERS_HOME", m), ("TMPDIR", r), ("TEMP", r), ("TMP", r)] :=
  ⟨by simp [setupRelease], rfl, rfl⟩

/-- C6: for both startup-failure cases — spawn-level OS error and missing
backend binary — the setup path logs the failure, emits exactly one
`sidecar-error` notification to the main window carrying the
human-readable message, still returns success (`Ok(())`), and leaves the
child slot unchanged, so the application keeps running without a
sidecar. -/
theorem sidecar_startup_failure_recovery (e m r : String) (s : AppState) :
    setupRelease true (SpawnOutcome.spawnFailed e) m r s =
      ({ s with backendPort := BACKEND_PORT },
        [SetupEvent.reaperInvoked, SetupEvent.portStored BACKEND_PORT,
         SetupEvent.errorLogged ("Erreur lancement sidecar : " ++ e),
         SetupEvent.windowNotified "sidecar-error" ("Erreur lancement sidecar : " ++ e)],
        true) ∧
    setupRelease true (SpawnOutcome.binaryMissing e) m r s =
      ({ s with backendPort := BACKEND_PORT },
        [SetupEvent.reaperInvoked, SetupEvent.portStored BACKEND_PORT,
         SetupEvent.errorLogged ("Binaire sidecar introuvable : " ++ e),
         SetupEvent.windowNotified "sidecar-error" ("Binaire sidecar introuvable : " ++ e)],
        true) ∧
    (setupRelease true (SpawnOutcome.spawnFailed e) m r s).2.1.countP
      isWindowNotifyEvent = 1 ∧
    (setupRelease true (SpawnOutcome.binaryMissing e) m r s).2.1.countP
      isWindowNotifyEvent = 1 ∧
    (setupRelease true (SpawnOutcome.spawnFailed e) m r s).1.child = s.child ∧
    (setupRelease true (SpawnOutcome.binaryMissing e) m r s).1.child = s.child :=
  ⟨rfl, rfl, rfl, rfl, rfl, rfl⟩

end Therese
